import Mathlib

/-!
Verification development for the VW crash-to-repair simulator backend.

Shallow embedding of the simulator telemetry pipeline and damage
assessment services:
  * `src/backend/src/services/beamng.py`
    (`BeamNGWebSocketClient`, `_normalize_damage_data`,
     `_calculate_crash_severity`),
  * `src/src/beamng/simulator.py` (`_normalize_damage_data`),
  * `src/backend/src/services/damage_report.py`
    (`_assess_zone_damage`, `_identify_damaged_parts`,
     `_calculate_severity_score`, `_assess_safety_impact`,
     `_estimate_zone_repair_cost`, `_calculate_total_repair_estimate`),
  * `src/backend/src/utils/exceptions.py`.

Python dicts are modelled as association lists with distinct keys, kept
in insertion order; floats and `Decimal` amounts are modelled as exact
rationals.
-/

namespace VW

/-- Dict lookup: first value bound to key `k`, mirroring `d.get(k)`. -/
def lookupStr {α : Type} (l : List (String × α)) (k : String) : Option α :=
  (l.find? (fun p => p.1 = k)).map (fun p => p.2)

/-- Dict write `d[k] = v`: replace the value at an existing key in place,
otherwise append the new binding (Python dicts keep insertion order). -/
def insertReplace {α : Type} : List (String × α) → String → α → List (String × α)
  | [], k, v => [(k, v)]
  | p :: rest, k, v =>
      if p.1 = k then (k, v) :: rest else p :: insertReplace rest k v

/-- Dict removal `d.pop(k, None)`: drop the first binding of key `k`. -/
def eraseKey {α : Type} : List (String × α) → String → List (String × α)
  | [], _ => []
  | p :: rest, k => if p.1 = k then rest else p :: eraseKey rest k

/-- Python `max(values)` over a non-empty list (`0` for the empty list,
which the callers rule out before calling). -/
def listMax : List ℚ → ℚ
  | [] => 0
  | x :: xs => xs.foldl max x

/-- Keys of an association list. -/
def keysOf {α : Type} (l : List (String × α)) : List String :=
  l.map (fun p => p.1)

/-! ### Telemetry normalizer, `src/backend/src/services/beamng.py` -/

/-- `vw_component_mapping` from `BeamNGService._normalize_damage_data`:
vendor (BeamNG) component key to canonical VW component id. -/
def vw_component_mapping : List (String × String) :=
  [ ("bumper_F", "front_bumper"),
    ("hood", "hood"),
    ("fender_FL", "left_front_fender"),
    ("fender_FR", "right_front_fender"),
    ("headlight_L", "left_headlight"),
    ("headlight_R", "right_headlight"),
    ("grille", "front_grille"),
    ("door_FL", "left_front_door"),
    ("door_FR", "right_front_door"),
    ("door_RL", "left_rear_door"),
    ("door_RR", "right_rear_door"),
    ("quarter_L", "left_quarter_panel"),
    ("quarter_R", "right_quarter_panel"),
    ("pillar_A_L", "left_a_pillar"),
    ("pillar_A_R", "right_a_pillar"),
    ("bumper_R", "rear_bumper"),
    ("trunk", "trunk_lid"),
    ("taillight_L", "left_taillight"),
    ("taillight_R", "right_taillight"),
    ("roof", "roof"),
    ("windshield", "windshield"),
    ("window_FL", "left_front_window"),
    ("window_FR", "right_front_window"),
    ("window_RL", "left_rear_window"),
    ("window_RR", "right_rear_window"),
    ("engine", "engine"),
    ("radiator", "radiator"),
    ("suspension_FL", "left_front_suspension"),
    ("suspension_FR", "right_front_suspension"),
    ("suspension_RL", "left_rear_suspension"),
    ("suspension_RR", "right_rear_suspension") ]

/-- Canonical id of a vendor key: table entry, or the key itself when the
key is unmapped (`vw_component_mapping.get(beamng_component, beamng_component)`). -/
def canonicalOf (k : String) : String :=
  (lookupStr vw_component_mapping k).getD k

/-- Clamp of one raw damage value, `max(0.0, min(1.0, float(damage_value)))`. -/
def clamp01 (v : ℚ) : ℚ := max 0 (min 1 v)

/-- One iteration of the normalization loop: map the vendor key, clamp the
value, and store it only when it exceeds the `0.05` noise threshold. -/
def normalizeStep (acc : List (String × ℚ)) (entry : String × ℚ) :
    List (String × ℚ) :=
  let vw := canonicalOf entry.1
  let nv := clamp01 entry.2
  if 1/20 < nv then insertReplace acc vw nv else acc

/-- `BeamNGService._normalize_damage_data`, applied to the `components`
sub-dict of the raw damage payload (all values numeric; non-numeric values
are skipped by the source's `isinstance` guard and are outside this model). -/
def normalize_damage_data (raw : List (String × ℚ)) : List (String × ℚ) :=
  raw.foldl normalizeStep []

/-- `BeamNGService._calculate_crash_severity`, applied to the `components`
sub-dict of the raw damage payload. Works on the RAW values: sum, maximum
and the count of values above `0.1`, combined and clamped to `[0,1]`. -/
def calculate_crash_severity (components : List (String × ℚ)) : ℚ :=
  match components with
  | [] => 0
  | c :: cs =>
      let values := (c :: cs).map (fun p => p.2)
      let total_damage := values.sum
      let max_damage := listMax values
      let component_count : ℚ := (values.filter (fun d => 1/10 < d)).length
      let severity :=
        (total_damage / values.length) * (2/5) + max_damage * (2/5)
          + (component_count / 20) * (1/5)
      max 0 (min 1 severity)

/-- The crash-severity formula exactly as the spec words it: `0.4 ×
average(normalized values) + 0.4 × max(normalized values) + 0.2 × min(1,
affected_component_count / 20)` over the canonical (normalized) map, `0.0`
on empty input. Stated for comparison against `calculate_crash_severity`. -/
def specCrashSeverity (raw : List (String × ℚ)) : ℚ :=
  let n := normalize_damage_data raw
  match n with
  | [] => 0
  | c :: cs =>
      let values := (c :: cs).map (fun p => p.2)
      (2/5) * (values.sum / values.length) + (2/5) * listMax values
        + (1/5) * min 1 ((values.length : ℚ) / 20)

/-! ### Telemetry normalizer, `src/src/beamng/simulator.py` -/

/-- `component_mapping` from `BeamNGSimulator._normalize_damage_data` in
`src/src/beamng/simulator.py`. -/
def sim_component_mapping : List (String × String) :=
  [ ("bumper_F", "front_bumper"),
    ("hood", "hood"),
    ("fender_FL", "left_front_fender"),
    ("fender_FR", "right_front_fender"),
    ("headlight_L", "left_headlight"),
    ("headlight_R", "right_headlight"),
    ("door_FL", "left_front_door"),
    ("door_FR", "right_front_door"),
    ("door_RL", "left_rear_door"),
    ("door_RR", "right_rear_door"),
    ("quarter_L", "left_quarter_panel"),
    ("quarter_R", "right_quarter_panel"),
    ("bumper_R", "rear_bumper"),
    ("trunk", "trunk_lid"),
    ("taillight_L", "left_taillight"),
    ("taillight_R", "right_taillight"),
    ("engine", "engine_assembly"),
    ("transmission", "transmission"),
    ("suspension_FL", "left_front_suspension"),
    ("suspension_FR", "right_front_suspension"),
    ("suspension_RL", "left_rear_suspension"),
    ("suspension_RR", "right_rear_suspension"),
    ("windshield", "windshield"),
    ("window_FL", "left_front_window"),
    ("window_FR", "right_front_window"),
    ("window_RL", "left_rear_window"),
    ("window_RR", "right_rear_window") ]

/-- One iteration of the simulator-module normalization loop: keys present
in the mapping are stored under their canonical id with a clamped value
(`min(1.0, max(0.0, ...))`); keys absent from the mapping are skipped. -/
def simNormalizeStep (acc : List (String × ℚ)) (entry : String × ℚ) :
    List (String × ℚ) :=
  match lookupStr sim_component_mapping entry.1 with
  | some component_id => insertReplace acc component_id (clamp01 entry.2)
  | none => acc

/-- `BeamNGSimulator._normalize_damage_data` from `src/src/beamng/simulator.py`:
iterates the raw damage dict itself, keeps only mapped keys. -/
def sim_normalize_damage_data (raw : List (String × ℚ)) : List (String × ℚ) :=
  raw.foldl simNormalizeStep []

/-! ### Damage zone analyzer, `src/backend/src/services/damage_report.py` -/

/-- One analyzed damage zone as consumed by `_calculate_severity_score`
and `_assess_safety_impact`: its zone id, display name and damage level. -/
structure DamageZoneInfo where
  zone : String
  name : String
  damageLevel : ℚ
deriving DecidableEq

/-- `zone_weights` from `_calculate_severity_score`. -/
def zone_weights : List (String × ℚ) :=
  [ ("passenger_compartment", 2),
    ("engine_bay", 9/5),
    ("front_end", 3/2),
    ("suspension", 7/5),
    ("rear_end", 6/5),
    ("undercarriage", 1) ]

/-- Weight of a zone, `zone_weights.get(zone_name, 1.0)`. -/
def zoneWeightOf (zoneName : String) : ℚ :=
  (lookupStr zone_weights zoneName).getD 1

/-- `DamageReportService._calculate_severity_score`: sums damage × weight
over the zones, divides by the zone count and by the average table weight,
multiplies by `100`, and clamps to `[0,100]`; `0.0` for an empty list. -/
def calculate_severity_score (damage_zones : List DamageZoneInfo) : ℚ :=
  let total_score :=
    damage_zones.foldl (fun acc z => acc + z.damageLevel * zoneWeightOf z.zone) 0
  let zone_count := damage_zones.length
  if 0 < zone_count then
    let avg_weight := (zone_weights.map (fun p => p.2)).sum / zone_weights.length
    min 100 (max 0 (total_score / zone_count / avg_weight * 100))
  else 0

/-- The severity-score formula exactly as the spec words it: weighted
average of zone damage levels divided by the average zone weight, clamped
to `[0,100]` (no `× 100` factor). Stated for comparison against
`calculate_severity_score`. -/
def specSeverityScore (damage_zones : List DamageZoneInfo) : ℚ :=
  let total_score :=
    damage_zones.foldl (fun acc z => acc + z.damageLevel * zoneWeightOf z.zone) 0
  let zone_count := damage_zones.length
  if 0 < zone_count then
    let avg_weight := (zone_weights.map (fun p => p.2)).sum / zone_weights.length
    min 100 (max 0 (total_score / zone_count / avg_weight))
  else 0

/-- The six fixed zones of `_analyze_damage_zones`, in source order, with
their display names, carrying the given damage levels. -/
def standardZones (fe pc re eb su uc : ℚ) : List DamageZoneInfo :=
  [ ⟨"front_end", "Front End", fe⟩,
    ⟨"passenger_compartment", "Passenger Compartment", pc⟩,
    ⟨"rear_end", "Rear End", re⟩,
    ⟨"engine_bay", "Engine Bay", eb⟩,
    ⟨"suspension", "Suspension System", su⟩,
    ⟨"undercarriage", "Undercarriage", uc⟩ ]

/-- One catalog entry of `zone_parts_mapping` in `_identify_damaged_parts`. -/
structure PartInfo where
  partNumber : String
  name : String
  threshold : ℚ
deriving DecidableEq

/-- `zone_parts_mapping` from `_identify_damaged_parts`. -/
def zone_parts_mapping : List (String × List PartInfo) :=
  [ ("front_end",
      [ ⟨"1J0807221", "Front Bumper Cover", 15⟩,
        ⟨"5G0823300", "Hood", 30⟩,
        ⟨"5G0809857", "Front Fender", 25⟩,
        ⟨"5G0941006", "Headlight Assembly", 35⟩ ]),
    ("passenger_compartment",
      [ ⟨"5G0831055", "Door Shell", 40⟩,
        ⟨"5G0845011", "Windshield", 20⟩,
        ⟨"5G0867011", "Door Panel", 30⟩ ]),
    ("engine_bay",
      [ ⟨"1K0199262", "Engine Mount", 50⟩,
        ⟨"5G0121251", "Radiator", 35⟩,
        ⟨"1J0201801", "Fuel Tank", 60⟩ ]),
    ("suspension",
      [ ⟨"5G0413031", "Shock Strut", 40⟩,
        ⟨"5G0601025", "Alloy Wheel", 25⟩,
        ⟨"5G0407151", "Control Arm", 45⟩ ]) ]

/-- Parts catalog for a zone, `zone_parts_mapping.get(zone_name, [])`. -/
def zonePartsFor (zoneName : String) : List PartInfo :=
  (lookupStr zone_parts_mapping zoneName).getD []

/-- Severity tier assigned in `_identify_damaged_parts` from the zone
damage level. -/
def severityFor (damageLevel : ℚ) : String :=
  if 80 ≤ damageLevel then "total"
  else if 60 ≤ damageLevel then "high"
  else if 40 ≤ damageLevel then "medium"
  else "low"

/-- One part reported damaged by `_identify_damaged_parts`. -/
structure DamagedPart where
  partNumber : String
  name : String
  severity : String
  damagePercentage : ℚ
deriving DecidableEq

/-- `DamageReportService._identify_damaged_parts`: every catalog part of
the zone whose threshold the damage level reaches, tagged with its
severity tier and capped damage percentage. -/
def identify_damaged_parts (zoneName : String) (damageLevel : ℚ) :
    List DamagedPart :=
  (zonePartsFor zoneName).filterMap (fun part_info =>
    if part_info.threshold ≤ damageLevel then
      some ⟨part_info.partNumber, part_info.name, severityFor damageLevel,
            min 100 damageLevel⟩
    else none)

/-- `part_costs` from `_estimate_zone_repair_cost`. -/
def part_costs : List (String × ℚ) :=
  [ ("1J0807221", 850),
    ("5G0823300", 1500),
    ("5G0809857", 1200),
    ("5G0941006", 2200),
    ("5G0831055", 800),
    ("1K0199262", 320),
    ("5G0601025", 780) ]

/-- `severity_multipliers` from `_estimate_zone_repair_cost`. -/
def severity_multipliers : List (String × ℚ) :=
  [ ("low", 3/10), ("medium", 1), ("high", 6/5), ("total", 3/2) ]

/-- Catalog price of a part, `part_costs.get(part_number, 250.00)`. -/
def catalogPrice (partNumber : String) : ℚ :=
  (lookupStr part_costs partNumber).getD 250

/-- Severity multiplier, `severity_multipliers.get(severity, 1.0)`. -/
def severityMultiplierOf (severity : String) : ℚ :=
  (lookupStr severity_multipliers severity).getD 1

/-- `DamageReportService._estimate_zone_repair_cost`: parts subtotal at
catalog price × severity multiplier, plus a labor cost of 60% of the
parts subtotal (`Decimal` arithmetic in the source, exact ℚ here). -/
def estimate_zone_repair_cost (affected_parts : List DamagedPart) : ℚ :=
  let total_cost := affected_parts.foldl
    (fun acc part => acc + catalogPrice part.partNumber * severityMultiplierOf part.severity) 0
  total_cost + total_cost * (3/5)

/-- `DamageReportService._calculate_total_repair_estimate` applied to the
zones' `repair_cost_estimate` values: their sum plus 10% shop supplies. -/
def calculate_total_repair_estimate (zoneCosts : List ℚ) : ℚ :=
  let total_estimate := zoneCosts.foldl (fun acc c => acc + c) 0
  total_estimate + total_estimate * (1/10)

/-- Result of `_assess_zone_damage` for one zone (the source additionally
rounds the reported `damage_level` to two decimals for display; parts and
cost are computed from the unrounded value modelled here). -/
structure ZoneAssessment where
  damageLevel : ℚ
  affectedParts : List DamagedPart
  repairCostEstimate : ℚ
  impactForce : ℚ
  deformationAmount : ℚ
deriving DecidableEq

/-- `DamageReportService._assess_zone_damage`: combines impact force and
deformation into a damage level capped at 100, and identifies affected
parts only above the minor-damage threshold of 20. -/
def assess_zone_damage (zoneName : String) (impact_force deformation_amount : ℚ) :
    ZoneAssessment :=
  let damage_level := min 100 (impact_force * (3/5) + deformation_amount * (2/5))
  let affected_parts :=
    if 20 < damage_level then identify_damaged_parts zoneName damage_level else []
  { damageLevel := damage_level,
    affectedParts := affected_parts,
    repairCostEstimate := estimate_zone_repair_cost affected_parts,
    impactForce := impact_force,
    deformationAmount := deformation_amount }

/-! ### Exception taxonomy, `src/backend/src/utils/exceptions.py`, and the
protocol client, `BeamNGWebSocketClient` in `src/backend/src/services/beamng.py` -/

/-- The exception classes of `src/backend/src/utils/exceptions.py` that
derive from `VWApplicationError`, each carrying its message. -/
inductive VWError where
  | validationException (msg : String)
  | serviceException (msg : String)
  | beamNGConnectionError (msg : String)
  | telemetryExtractionError (msg : String)
  | vehicleLoadError (msg : String)
  | crashSimulationError (msg : String)
  | databaseConnectionError (msg : String)
  | validationError (msg : String)
deriving DecidableEq

/-- The exception class (type) of an error, forgetting the message. -/
inductive ErrorClass where
  | validationException
  | serviceException
  | beamNGConnection
  | telemetryExtraction
  | vehicleLoad
  | crashSimulation
  | databaseConnection
  | validation
deriving DecidableEq

/-- Class of a raised error. -/
def errorClassOf : VWError → ErrorClass
  | .validationException _ => .validationException
  | .serviceException _ => .serviceException
  | .beamNGConnectionError _ => .beamNGConnection
  | .telemetryExtractionError _ => .telemetryExtraction
  | .vehicleLoadError _ => .vehicleLoad
  | .crashSimulationError _ => .crashSimulation
  | .databaseConnectionError _ => .databaseConnection
  | .validationError _ => .validation

/-- State of one entry of `BeamNGWebSocketClient._response_futures`: an
`asyncio.Future` that is pending, resolved with a response (its JSON text),
or failed with an error. -/
inductive FutureState where
  | pending
  | resolvedWith (response : String)
  | failedWith (err : VWError)
deriving DecidableEq

/-- State of a `BeamNGWebSocketClient`: whether a websocket object is
present, the `connected` flag, and the pending-response table. -/
structure ClientState where
  websocket : Bool
  connected : Bool
  responseFutures : List (String × FutureState)
deriving DecidableEq

/-- `BeamNGWebSocketClient.disconnect`: when a websocket is present and the
client is connected, close the socket and clear the `connected` flag. The
`_response_futures` table is not touched. -/
def disconnect (s : ClientState) : ClientState :=
  if s.websocket ∧ s.connected then { s with connected := false } else s

/-- The `ConnectionClosed` branch of `_message_listener`, which runs after
the socket closes: it clears the `connected` flag and nothing else. -/
def onConnectionClosed (s : ClientState) : ClientState :=
  { s with connected := false }

/-- `BeamNGWebSocketClient.send_command` for one call, with the fate of the
caller's future abstracted as `arrival` (`some response` when a matching
response resolves the future within the timeout, `none` when the timeout
elapses first). Mirrors the source: reject when not connected; register the
future; on timeout raise `BeamNGConnectionError`; in the `finally` block pop
the pending entry before the result or error reaches the caller. -/
def send_command (s : ClientState) (message_id : String) (arrival : Option String) :
    Except VWError String × ClientState :=
  if ¬ (s.connected ∧ s.websocket) then
    (Except.error (VWError.beamNGConnectionError "Not connected to BeamNG.drive"), s)
  else
    let registered := insertReplace s.responseFutures message_id FutureState.pending
    match arrival with
    | some response =>
        (Except.ok response, { s with responseFutures := eraseKey registered message_id })
    | none =>
        (Except.error (VWError.beamNGConnectionError "Command timed out"),
         { s with responseFutures := eraseKey registered message_id })

/-- Safety assessment record built by `_assess_safety_impact`. -/
structure SafetyAssessment where
  overallRating : String
  driveable : Bool
  safetyConcerns : List String
  immediateActions : List String
  inspectionRequired : Bool
deriving DecidableEq

/-- One iteration of the zone loop in `_assess_safety_impact`. -/
def safetyStep (a : SafetyAssessment) (z : DamageZoneInfo) : SafetyAssessment :=
  let a :=
    if z.zone ∈ ["passenger_compartment", "engine_bay", "suspension"] ∧ 30 < z.damageLevel then
      { a with safetyConcerns := a.safetyConcerns ++ ["Significant damage to " ++ z.name] }
    else a
  let a :=
    if z.zone = "passenger_compartment" ∧ 20 < z.damageLevel then
      { a with inspectionRequired := true,
               immediateActions := a.immediateActions ++ ["Professional safety inspection required"] }
    else a
  let a :=
    if z.zone = "suspension" ∧ 40 < z.damageLevel then
      { a with driveable := false,
               immediateActions := a.immediateActions ++ ["Do not drive - suspension damage"] }
    else a
  if z.zone = "engine_bay" ∧ 50 < z.damageLevel then
    { a with driveable := false,
             immediateActions := a.immediateActions ++ ["Engine damage - towing required"] }
  else a

/-- The overall-rating tiers applied at the end of `_assess_safety_impact`. -/
def overallRatingFor (severity_score : ℚ) : String :=
  if 70 < severity_score then "unsafe"
  else if 40 < severity_score then "caution"
  else if 15 < severity_score then "minor_concern"
  else "safe"

/-- `DamageReportService._assess_safety_impact`: folds the zone checks over
the damage zones starting from the all-clear record, then sets the overall
rating from the severity score. -/
def assess_safety_impact (damage_zones : List DamageZoneInfo) (severity_score : ℚ) :
    SafetyAssessment :=
  let a := damage_zones.foldl safetyStep
    { overallRating := "safe", driveable := true, safetyConcerns := [],
      immediateActions := [], inspectionRequired := false }
  { a with overallRating := overallRatingFor severity_score }

/-! ### Shared lemmas -/

lemma foldl_add_map {α : Type} (f : α → ℚ) (l : List α) (a : ℚ) :
    l.foldl (fun acc x => acc + f x) a = a + (l.map f).sum := by
  induction l generalizing a with
  | nil => simp
  | cons x xs ih => simp [ih, List.sum_cons]; ring

lemma lookupStr_cons {α : Type} (a : String) (b : α) (l : List (String × α)) (k : String) :
    lookupStr ((a, b) :: l) k = if a = k then some b else lookupStr l k := by
  by_cases h : a = k <;> simp [lookupStr, List.find?, h]

lemma mem_insertReplace {α : Type} {l : List (String × α)} {k : String} {v : α}
    {p : String × α} (h : p ∈ insertReplace l k v) : p ∈ l ∨ p = (k, v) := by
  induction l with
  | nil => simp [insertReplace] at h; simp [h]
  | cons q rest ih =>
      rw [insertReplace] at h
      split at h
      · rcases List.mem_cons.mp h with h | h
        · right; exact h
        · left; exact List.mem_cons_of_mem q h
      · rcases List.mem_cons.mp h with h | h
        · left; simp [h]
        · rcases ih h with h | h
          · left; exact List.mem_cons_of_mem q h
          · right; exact h

lemma lookup_insertReplace_self {α : Type} (l : List (String × α)) (k : String) (v : α) :
    lookupStr (insertReplace l k v) k = some v := by
  induction l with
  | nil => simp [insertReplace, lookupStr, List.find?]
  | cons q rest ih =>
      rw [insertReplace]
      split
      · simp [lookupStr_cons]
      · rename_i hq
        rw [show (q = (q.1, q.2)) from rfl, lookupStr_cons, if_neg hq, ih]

lemma lookup_insertReplace_ne {α : Type} (l : List (String × α)) {j k : String} (v : α)
    (h : j ≠ k) : lookupStr (insertReplace l j v) k = lookupStr l k := by
  induction l with
  | nil => simp [insertReplace, lookupStr, List.find?, h]
  | cons q rest ih =>
      rw [insertReplace]
      split
      · rename_i hq
        rw [show (q = (q.1, q.2)) from rfl, lookupStr_cons, lookupStr_cons, hq]
        simp [if_neg h]
      · rw [show (q = (q.1, q.2)) from rfl, lookupStr_cons, lookupStr_cons, ih]

lemma lookup_of_not_mem_keys {α : Type} {l : List (String × α)} {k : String}
    (h : k ∉ keysOf l) : lookupStr l k = none := by
  induction l with
  | nil => rfl
  | cons q rest ih =>
      simp only [keysOf, List.map_cons, List.mem_cons] at h
      push_neg at h
      rw [show (q = (q.1, q.2)) from rfl, lookupStr_cons, if_neg (Ne.symm h.1)]
      exact ih (by simpa [keysOf] using h.2)

lemma lookup_erase_insertReplace {α : Type} {l : List (String × α)} {k : String} (v : α)
    (h : (keysOf l).Nodup) : lookupStr (eraseKey (insertReplace l k v) k) k = none := by
  induction l with
  | nil => simp [insertReplace, eraseKey, lookupStr, List.find?]
  | cons q rest ih =>
      simp only [keysOf, List.map_cons, List.nodup_cons] at h
      rw [insertReplace]
      split
      · rename_i hq
        rw [eraseKey, if_pos rfl]
        exact lookup_of_not_mem_keys (by simpa [keysOf, hq] using h.1)
      · rename_i hq
        rw [eraseKey, if_neg hq]
        rw [show (q = (q.1, q.2)) from rfl, lookupStr_cons, if_neg hq]
        exact ih (by simpa [keysOf] using h.2)

/-! ### Claims -/

/-- C9: for every list of affected parts with severity tiers, the zone
repair cost equals the sum over parts of catalog price × severity
multiplier (low 0.3, medium 1.0, high 1.2, total 1.5) multiplied by 1.6
(labor as 60% of parts cost), and the total repair estimate equals the sum
of the zone costs multiplied by 1.10 (10% shop supplies), in exact
decimal arithmetic (modelled as exact rationals). -/
theorem repair_cost_formula_correct :
    (∀ affected_parts : List DamagedPart,
        estimate_zone_repair_cost affected_parts =
          (8/5) * ((affected_parts.map
            (fun p => catalogPrice p.partNumber * severityMultiplierOf p.severity)).sum))
    ∧ (∀ zoneCosts : List ℚ,
        calculate_total_repair_estimate zoneCosts = (11/10) * zoneCosts.sum)
    ∧ severityMultiplierOf "low" = 3/10
    ∧ severityMultiplierOf "medium" = 1
    ∧ severityMultiplierOf "high" = 6/5
    ∧ severityMultiplierOf "total" = 3/2 := by
  refine ⟨?_, ?_, rfl, rfl, rfl, rfl⟩
  · intro parts
    rw [estimate_zone_repair_cost, foldl_add_map]
    ring
  · intro zoneCosts
    rw [calculate_total_repair_estimate,
        show (fun (acc c : ℚ) => acc + c) = (fun acc c => acc + (fun x : ℚ => x) c) from rfl,
        foldl_add_map]
    simp only [List.map_id_fun', id, List.map_id']
    ring

/-- C10: every part reported by `_identify_damaged_parts` carries the
severity tier determined solely by the zone damage level with inclusive
thresholds: `total` at damage ≥ 80, `high` on [60,80), `medium` on
[40,60) and `low` below 40. -/
theorem severity_tier_thresholds :
    (∀ (zoneName : String) (damageLevel : ℚ) (dp : DamagedPart),
        dp ∈ identify_damaged_parts zoneName damageLevel →
          dp.severity = severityFor damageLevel)
    ∧ (∀ d : ℚ, 80 ≤ d → severityFor d = "total")
    ∧ (∀ d : ℚ, 60 ≤ d → d < 80 → severityFor d = "high")
    ∧ (∀ d : ℚ, 40 ≤ d → d < 60 → severityFor d = "medium")
    ∧ (∀ d : ℚ, d < 40 → severityFor d = "low") := by
  refine ⟨?_, ?_, ?_, ?_, ?_⟩
  · intro zoneName damageLevel dp h
    simp only [identify_damaged_parts, List.mem_filterMap] at h
    obtain ⟨q, _, hq⟩ := h
    split at hq
    · cases hq; rfl
    · cases hq
  all_goals intro d
  all_goals unfold severityFor
  all_goals intros
  all_goals split_ifs <;> first | rfl | linarith

/-- Witness for C10 at zone `front_end`, damage 85: the front bumper cover
is reported with tier `total`. -/
theorem severity_tier_thresholds_witness :
    ((⟨"1J0807221", "Front Bumper Cover", severityFor 85, min 100 85⟩ : DamagedPart)
        ∈ identify_damaged_parts "front_end" 85
      ∧ (⟨"1J0807221", "Front Bumper Cover", severityFor 85, min 100 85⟩ : DamagedPart).severity
          = severityFor 85)
    ∧ ((80:ℚ) ≤ 85 ∧ severityFor 85 = "total") := by
  have hmem : (⟨"1J0807221", "Front Bumper Cover", severityFor 85, min 100 85⟩ : DamagedPart)
      ∈ identify_damaged_parts "front_end" 85 := by
    norm_num [identify_damaged_parts, show zonePartsFor "front_end" =
      [ ⟨"1J0807221", "Front Bumper Cover", 15⟩,
        ⟨"5G0823300", "Hood", 30⟩,
        ⟨"5G0809857", "Front Fender", 25⟩,
        ⟨"5G0941006", "Headlight Assembly", 35⟩ ] from rfl, List.filterMap]
  exact ⟨⟨hmem, severity_tier_thresholds.1 "front_end" 85 _ hmem⟩,
    by norm_num, severity_tier_thresholds.2.1 85 (by norm_num)⟩

lemma clamp01_nonneg (v : ℚ) : 0 ≤ clamp01 v := le_max_left 0 _

lemma clamp01_le_one (v : ℚ) : clamp01 v ≤ 1 :=
  max_le (by norm_num) (min_le_left 1 v)

lemma normalize_foldl_bounds {raw acc : List (String × ℚ)}
    (hacc : ∀ p ∈ acc, 0 ≤ p.2 ∧ p.2 ≤ 1 ∧ 1/20 < p.2) :
    ∀ p ∈ raw.foldl normalizeStep acc, 0 ≤ p.2 ∧ p.2 ≤ 1 ∧ 1/20 < p.2 := by
  induction raw generalizing acc with
  | nil => simpa using hacc
  | cons e rest ih =>
      intro p hp
      rw [List.foldl_cons] at hp
      refine ih (fun q hq => ?_) p hp
      rw [normalizeStep] at hq
      split at hq
      · rename_i hfilter
        rcases mem_insertReplace hq with h | h
        · exact hacc q h
        · subst h
          exact ⟨clamp01_nonneg _, clamp01_le_one _, hfilter⟩
      · exact hacc q hq

/-- C4 (amended): every value in the canonical map lies in `[0,1]`, and
only values strictly greater than `0.05` appear — a component whose
clamped value is exactly `0.05` is dropped by the noise filter, not kept. -/
theorem normalized_value_bounds :
    (∀ (raw : List (String × ℚ)) (p : String × ℚ),
        p ∈ normalize_damage_data raw → 0 ≤ p.2 ∧ p.2 ≤ 1 ∧ 1/20 < p.2)
    ∧ normalize_damage_data [("hood", 1/20)] = [] := by
  constructor
  · intro raw p hp
    exact normalize_foldl_bounds (by simp) p hp
  · norm_num [normalize_damage_data, normalizeStep, canonicalOf, clamp01, lookupStr,
      vw_component_mapping, List.find?]

/-- Witness for C4 at raw map `hood = 2`: the clamped value `1` is in the
canonical map and satisfies the bounds. -/
theorem normalized_value_bounds_witness :
    ("hood", (1:ℚ)) ∈ normalize_damage_data [("hood", 2)]
    ∧ (0 ≤ (1:ℚ) ∧ (1:ℚ) ≤ 1 ∧ 1/20 < (1:ℚ)) := by
  have hmem : ("hood", (1:ℚ)) ∈ normalize_damage_data [("hood", 2)] := by
    norm_num [normalize_damage_data, normalizeStep, canonicalOf, clamp01, insertReplace,
      show lookupStr vw_component_mapping "hood" = some "hood" from rfl]
  exact ⟨hmem, normalized_value_bounds.1 [("hood", 2)] ("hood", 1) hmem⟩

/-- C4 counterexample: a component whose normalized value is exactly
`0.05` is excluded from the canonical map, contradicting the claim that
a component at exactly `0.05` is kept. -/
theorem noise_filter_boundary_counterexample :
    normalize_damage_data [("hood", 1/20)] = []
    ∧ clamp01 (1/20) = 1/20 := by
  constructor
  · norm_num [normalize_damage_data, normalizeStep, canonicalOf, clamp01, lookupStr,
      vw_component_mapping, List.find?]
  · norm_num [clamp01, min_def, max_def]

lemma normalize_foldl_no_touch {raw acc : List (String × ℚ)} {k : String}
    (h : ∀ p ∈ raw, canonicalOf p.1 ≠ k) :
    lookupStr (raw.foldl normalizeStep acc) k = lookupStr acc k := by
  induction raw generalizing acc with
  | nil => rfl
  | cons e rest ih =>
      rw [List.foldl_cons, ih (fun p hp => h p (List.mem_cons_of_mem e hp))]
      rw [normalizeStep]
      split
      · exact lookup_insertReplace_ne acc _ (h e (List.mem_cons_self e rest))
      · rfl

lemma normalize_foldl_passthrough {raw : List (String × ℚ)} {k : String} {v : ℚ}
    (acc : List (String × ℚ))
    (hnodup : (keysOf raw).Nodup)
    (hcanon : canonicalOf k = k)
    (hmem : (k, v) ∈ raw)
    (hfilter : 1/20 < clamp01 v)
    (hnocollision : ∀ p ∈ raw, p.1 ≠ k → canonicalOf p.1 ≠ k) :
    lookupStr (raw.foldl normalizeStep acc) k = some (clamp01 v) := by
  induction raw generalizing acc with
  | nil => cases hmem
  | cons e rest ih =>
      simp only [keysOf, List.map_cons, List.nodup_cons] at hnodup
      rcases List.mem_cons.mp hmem with he | he
      · subst he
        rw [List.foldl_cons, normalize_foldl_no_touch (fun p hp => ?_)]
        · rw [normalizeStep]
          simp only [hcanon, if_pos hfilter]
          exact lookup_insertReplace_self acc k (clamp01 v)
        · by_cases hpk : p.1 = k
          · exact absurd (hpk ▸ List.mem_map_of_mem (fun q => q.1) hp) hnodup.1
          · exact hnocollision p (List.mem_cons_of_mem _ hp) hpk
      · rw [List.foldl_cons]
        exact ih (normalizeStep acc e)
          (by simpa [keysOf] using hnodup.2) he
          (fun p hp hpk => hnocollision p (List.mem_cons_of_mem _ hp) hpk)

/-- C5 (amended, backend service normalizer): an unmapped vendor key whose
clamped value passes the noise filter appears in the canonical map under
its own key with its own clamped value, provided no other raw key
normalizes to the same canonical id; the simulator-module normalizer
instead drops unmapped keys. -/
theorem unmapped_key_passthrough
    (raw : List (String × ℚ)) (k : String) (v : ℚ)
    (hnodup : (keysOf raw).Nodup)
    (hunmapped : lookupStr vw_component_mapping k = none)
    (hmem : (k, v) ∈ raw)
    (hfilter : 1/20 < clamp01 v)
    (hnocollision : ∀ p ∈ raw, p.1 ≠ k → canonicalOf p.1 ≠ k) :
    lookupStr (normalize_damage_data raw) k = some (clamp01 v) := by
  have hcanon : canonicalOf k = k := by rw [canonicalOf, hunmapped]; rfl
  exact normalize_foldl_passthrough [] hnodup hcanon hmem hfilter hnocollision

/-- Witness for C5: the unmapped key `custom_part` with value `0.9` passes
through the backend service normalizer under its own key. -/
theorem unmapped_key_passthrough_witness :
    ((keysOf [("custom_part", (9:ℚ)/10)]).Nodup
      ∧ lookupStr vw_component_mapping "custom_part" = none
      ∧ ("custom_part", (9:ℚ)/10) ∈ [("custom_part", (9:ℚ)/10)]
      ∧ 1/20 < clamp01 (9/10))
    ∧ lookupStr (normalize_damage_data [("custom_part", (9:ℚ)/10)]) "custom_part"
        = some (clamp01 (9/10)) := by
  have h1 : (keysOf [("custom_part", (9:ℚ)/10)]).Nodup := by simp [keysOf]
  have h2 : lookupStr vw_component_mapping "custom_part" = none := rfl
  have h3 : ("custom_part", (9:ℚ)/10) ∈ [("custom_part", (9:ℚ)/10)] := by simp
  have h4 : (1:ℚ)/20 < clamp01 (9/10) := by norm_num [clamp01, min_def, max_def]
  refine ⟨⟨h1, h2, h3, h4⟩, ?_⟩
  refine unmapped_key_passthrough _ _ _ h1 h2 h3 h4 ?_
  intro p hp hpk
  simp only [List.mem_singleton] at hp
  exact absurd (by rw [hp]) hpk

/-- C5 counterexample: the simulator-module normalizer drops the unmapped
key `custom_part` entirely, and in the backend service normalizer a later
raw key mapping to the same canonical id overwrites an unmapped key's own
value (`front_bumper` ends at `0.9`, not its own `0.5`) — so unmapped keys
do not always pass through with their own clamped value. -/
theorem unmapped_key_dropped_counterexample :
    sim_normalize_damage_data [("custom_part", (9:ℚ)/10)] = []
    ∧ lookupStr (normalize_damage_data [("front_bumper", (1:ℚ)/2), ("bumper_F", (9:ℚ)/10)])
        "front_bumper" = some (9/10)
    ∧ ((9:ℚ)/10) ≠ ((1:ℚ)/2) := by
  refine ⟨rfl, ?_, by norm_num⟩
  norm_num [normalize_damage_data, normalizeStep, canonicalOf, clamp01, insertReplace,
    show lookupStr vw_component_mapping "front_bumper" = none from rfl,
    show lookupStr vw_component_mapping "bumper_F" = some "front_bumper" from rfl,
    lookupStr_cons]

/-- C3 counterexample: on the raw map `hood = 2`, the code's crash
severity (computed from the raw values) is `1`, while the claim's formula
over the normalized values gives `0.81`. -/
theorem crash_severity_normalized_counterexample :
    calculate_crash_severity [("hood", (2:ℚ))] = 1
    ∧ specCrashSeverity [("hood", (2:ℚ))] = 81/100
    ∧ ((1:ℚ) ≠ 81/100) := by
  refine ⟨?_, ?_, by norm_num⟩
  · norm_num [calculate_crash_severity, listMax, List.filter, min_def, max_def]
  · norm_num [specCrashSeverity, normalize_damage_data, normalizeStep, canonicalOf,
      clamp01, insertReplace, listMax, min_def, max_def,
      show lookupStr vw_component_mapping "hood" = some "hood" from rfl]

/-- C3 (amended): the crash severity is computed from the RAW component
values — `0.4 × average(raw) + 0.4 × max(raw) + 0.2 × (count of raw
values above 0.1)/20`, clamped to `[0,1]` — not from the normalized map;
empty input yields `0.0`, and the scenario raw map
`bumper_F = 0.85, hood = 0.45` normalizes to
`front_bumper = 0.85, hood = 0.45` and has severity `0.62`. -/
theorem crash_severity_raw_formula :
    (∀ components : List (String × ℚ),
        0 ≤ calculate_crash_severity components ∧ calculate_crash_severity components ≤ 1)
    ∧ calculate_crash_severity [] = 0
    ∧ (∀ components : List (String × ℚ), components ≠ [] →
        calculate_crash_severity components =
          max 0 (min 1
            (((components.map (fun p => p.2)).sum / (components.length : ℚ)) * (2/5)
              + listMax (components.map (fun p => p.2)) * (2/5)
              + ((((components.map (fun p => p.2)).filter
                    (fun d => 1/10 < d)).length : ℚ) / 20) * (1/5))))
    ∧ normalize_damage_data [("bumper_F", (85:ℚ)/100), ("hood", (45:ℚ)/100)]
        = [("front_bumper", 17/20), ("hood", 9/20)]
    ∧ calculate_crash_severity [("bumper_F", (85:ℚ)/100), ("hood", (45:ℚ)/100)] = 31/50 := by
  refine ⟨?_, rfl, ?_, ?_, ?_⟩
  · intro components
    rcases components with _ | ⟨c, cs⟩
    · norm_num [calculate_crash_severity]
    · exact ⟨le_max_left 0 _, max_le (by norm_num) (min_le_left 1 _)⟩
  · intro components hne
    rcases components with _ | ⟨c, cs⟩
    · exact absurd rfl hne
    · simp only [calculate_crash_severity, List.length_map]
  · norm_num [normalize_damage_data, normalizeStep, canonicalOf, clamp01, insertReplace,
      min_def, max_def,
      show lookupStr vw_component_mapping "bumper_F" = some "front_bumper" from rfl,
      show lookupStr vw_component_mapping "hood" = some "hood" from rfl]
    decide
  · norm_num [calculate_crash_severity, listMax, List.filter, min_def, max_def]

/-- Witness for C3 on the spec's scenario raw map. -/
theorem crash_severity_raw_formula_witness :
    ([("bumper_F", (85:ℚ)/100), ("hood", (45:ℚ)/100)] ≠ ([] : List (String × ℚ)))
    ∧ calculate_crash_severity [("bumper_F", (85:ℚ)/100), ("hood", (45:ℚ)/100)] =
        max 0 (min 1
          ((([("bumper_F", (85:ℚ)/100), ("hood", (45:ℚ)/100)].map (fun p => p.2)).sum
              / (([("bumper_F", (85:ℚ)/100), ("hood", (45:ℚ)/100)].length : ℚ))) * (2/5)
            + listMax ([("bumper_F", (85:ℚ)/100), ("hood", (45:ℚ)/100)].map (fun p => p.2)) * (2/5)
            + (((([("bumper_F", (85:ℚ)/100), ("hood", (45:ℚ)/100)].map (fun p => p.2)).filter
                  (fun d => 1/10 < d)).length : ℚ) / 20) * (1/5))) :=
  ⟨by simp, crash_severity_raw_formula.2.2.1 _ (by simp)⟩

lemma zone_weights_avg :
    ((zone_weights.map (fun p => p.2)).sum / (zone_weights.length : ℚ)) = 89/60 := by
  norm_num [zone_weights]

/-- C1 counterexample: with all six zones at damage level 50, the code's
severity score is `100` (the `× 100` factor saturates the clamp), while
the claim's formula — weighted average divided by average weight — gives
`50`. -/
theorem severity_score_scale_counterexample :
    calculate_severity_score (standardZones 50 50 50 50 50 50) = 100
    ∧ specSeverityScore (standardZones 50 50 50 50 50 50) = 50
    ∧ ((100:ℚ) ≠ 50) := by
  refine ⟨?_, ?_, by norm_num⟩
  · simp only [calculate_severity_score, standardZones, List.foldl,
      show zoneWeightOf "front_end" = 3/2 from rfl,
      show zoneWeightOf "passenger_compartment" = 2 from rfl,
      show zoneWeightOf "rear_end" = 6/5 from rfl,
      show zoneWeightOf "engine_bay" = 9/5 from rfl,
      show zoneWeightOf "suspension" = 7/5 from rfl,
      show zoneWeightOf "undercarriage" = 1 from rfl,
      show zone_weights.length = 6 from rfl, List.length_cons, List.length_nil]
    norm_num [zone_weights, min_def, max_def]
  · simp only [specSeverityScore, standardZones, List.foldl,
      show zoneWeightOf "front_end" = 3/2 from rfl,
      show zoneWeightOf "passenger_compartment" = 2 from rfl,
      show zoneWeightOf "rear_end" = 6/5 from rfl,
      show zoneWeightOf "engine_bay" = 9/5 from rfl,
      show zoneWeightOf "suspension" = 7/5 from rfl,
      show zoneWeightOf "undercarriage" = 1 from rfl,
      show zone_weights.length = 6 from rfl, List.length_cons, List.length_nil]
    norm_num [zone_weights, min_def, max_def]

/-- C1 (amended): the overall severity score equals the weighted average
of zone damage levels divided by the average zone weight (`89/60`) and
multiplied by `100`, clamped to `[0,100]`; it always lies in `[0,100]`,
and an empty zone list yields `0`. -/
theorem severity_score_weighted_formula :
    (∀ zones : List DamageZoneInfo,
        0 ≤ calculate_severity_score zones ∧ calculate_severity_score zones ≤ 100)
    ∧ calculate_severity_score [] = 0
    ∧ (∀ zones : List DamageZoneInfo, zones ≠ [] →
        calculate_severity_score zones =
          min 100 (max 0
            ((((zones.map (fun z => z.damageLevel * zoneWeightOf z.zone)).sum
                / (zones.length : ℚ)) / (89/60)) * 100))) := by
  refine ⟨?_, rfl, ?_⟩
  · intro zones
    rcases zones with _ | ⟨z, zs⟩
    · norm_num [calculate_severity_score]
    · simp only [calculate_severity_score]
      rw [if_pos (by simp)]
      exact ⟨le_min (by norm_num) (le_max_left 0 _), min_le_left 100 _⟩
  · intro zones hne
    have hlen : 0 < zones.length := List.length_pos.mpr hne
    simp only [calculate_severity_score, if_pos hlen]
    rw [show (fun (acc : ℚ) (z : DamageZoneInfo) => acc + z.damageLevel * zoneWeightOf z.zone)
          = (fun acc z => acc + (fun q : DamageZoneInfo => q.damageLevel * zoneWeightOf q.zone) z)
        from rfl, foldl_add_map, zero_add, zone_weights_avg]

/-- Witness for C1 on a single undercarriage zone at damage 60. -/
theorem severity_score_weighted_formula_witness :
    ([(⟨"undercarriage", "Undercarriage", 60⟩ : DamageZoneInfo)] ≠ [])
    ∧ calculate_severity_score [(⟨"undercarriage", "Undercarriage", 60⟩ : DamageZoneInfo)] =
        min 100 (max 0
          (((([(⟨"undercarriage", "Undercarriage", 60⟩ : DamageZoneInfo)].map
                (fun z => z.damageLevel * zoneWeightOf z.zone)).sum
              / (([(⟨"undercarriage", "Undercarriage", 60⟩ : DamageZoneInfo)].length : ℚ)))
            / (89/60)) * 100)) :=
  ⟨by simp, severity_score_weighted_formula.2.2 _ (by simp)⟩

lemma safetyStep_driveable (a : SafetyAssessment) (z : DamageZoneInfo) :
    ((safetyStep a z).driveable = false ↔
      a.driveable = false
        ∨ (z.zone = "suspension" ∧ 40 < z.damageLevel)
        ∨ (z.zone = "engine_bay" ∧ 50 < z.damageLevel)) := by
  unfold safetyStep
  split_ifs <;> simp_all

lemma safetyStep_inspection (a : SafetyAssessment) (z : DamageZoneInfo) :
    ((safetyStep a z).inspectionRequired = true ↔
      a.inspectionRequired = true
        ∨ (z.zone = "passenger_compartment" ∧ 20 < z.damageLevel)) := by
  unfold safetyStep
  split_ifs <;> simp_all

lemma foldl_safety_driveable (zones : List DamageZoneInfo) (a : SafetyAssessment) :
    ((zones.foldl safetyStep a).driveable = false ↔
      a.driveable = false
        ∨ ∃ z ∈ zones, (z.zone = "suspension" ∧ 40 < z.damageLevel)
            ∨ (z.zone = "engine_bay" ∧ 50 < z.damageLevel)) := by
  induction zones generalizing a with
  | nil => simp
  | cons e rest ih =>
      rw [List.foldl_cons, ih, safetyStep_driveable]
      simp only [List.mem_cons]
      constructor
      · rintro ((h | h | h) | ⟨z, hz, h⟩)
        · exact Or.inl h
        · exact Or.inr ⟨e, Or.inl rfl, Or.inl h⟩
        · exact Or.inr ⟨e, Or.inl rfl, Or.inr h⟩
        · exact Or.inr ⟨z, Or.inr hz, h⟩
      · rintro (h | ⟨z, (rfl | hz), h⟩)
        · exact Or.inl (Or.inl h)
        · rcases h with h | h
          · exact Or.inl (Or.inr (Or.inl h))
          · exact Or.inl (Or.inr (Or.inr h))
        · exact Or.inr ⟨z, hz, h⟩

lemma foldl_safety_inspection (zones : List DamageZoneInfo) (a : SafetyAssessment) :
    ((zones.foldl safetyStep a).inspectionRequired = true ↔
      a.inspectionRequired = true
        ∨ ∃ z ∈ zones, z.zone = "passenger_compartment" ∧ 20 < z.damageLevel) := by
  induction zones generalizing a with
  | nil => simp
  | cons e rest ih =>
      rw [List.foldl_cons, ih, safetyStep_inspection]
      simp only [List.mem_cons]
      constructor
      · rintro ((h | h) | ⟨z, hz, h⟩)
        · exact Or.inl h
        · exact Or.inr ⟨e, Or.inl rfl, h⟩
        · exact Or.inr ⟨z, Or.inr hz, h⟩
      · rintro (h | ⟨z, (rfl | hz), h⟩)
        · exact Or.inl (Or.inl h)
        · exact Or.inl (Or.inr h)
        · exact Or.inr ⟨z, hz, h⟩

/-- C2 counterexample: at severity score exactly 15 the code rates the
vehicle `safe`, not `minor_concern` — the rating tier boundaries are
exclusive, not inclusive, on the lower bound. -/
theorem safety_rating_boundary_counterexample :
    (assess_safety_impact (standardZones 0 0 0 0 0 0) 15).overallRating = "safe"
    ∧ "safe" ≠ "minor_concern" := by
  constructor
  · norm_num [assess_safety_impact, standardZones, safetyStep, overallRatingFor]
  · decide

/-- C2 (amended): over the six standard zones, `driveable = false` exactly
when suspension damage > 40 or engine-bay damage > 50;
`inspection_required` exactly when passenger-compartment damage > 20; and
the rating tiers are exclusive on the lower bound: `safe` for severity
≤ 15, `minor_concern` on (15,40], `caution` on (40,70], `unsafe` above
70. -/
theorem safety_assessment_thresholds (fe pc re eb su uc s : ℚ) :
    ((assess_safety_impact (standardZones fe pc re eb su uc) s).driveable = false
        ↔ (40 < su ∨ 50 < eb))
    ∧ ((assess_safety_impact (standardZones fe pc re eb su uc) s).inspectionRequired = true
        ↔ 20 < pc)
    ∧ (s ≤ 15 →
        (assess_safety_impact (standardZones fe pc re eb su uc) s).overallRating = "safe")
    ∧ (15 < s → s ≤ 40 →
        (assess_safety_impact (standardZones fe pc re eb su uc) s).overallRating = "minor_concern")
    ∧ (40 < s → s ≤ 70 →
        (assess_safety_impact (standardZones fe pc re eb su uc) s).overallRating = "caution")
    ∧ (70 < s →
        (assess_safety_impact (standardZones fe pc re eb su uc) s).overallRating = "unsafe") := by
  have hrate : (assess_safety_impact (standardZones fe pc re eb su uc) s).overallRating
      = overallRatingFor s := rfl
  have hdrv : (assess_safety_impact (standardZones fe pc re eb su uc) s).driveable
      = ((standardZones fe pc re eb su uc).foldl safetyStep
          { overallRating := "safe", driveable := true, safetyConcerns := [],
            immediateActions := [], inspectionRequired := false }).driveable := rfl
  have hins : (assess_safety_impact (standardZones fe pc re eb su uc) s).inspectionRequired
      = ((standardZones fe pc re eb su uc).foldl safetyStep
          { overallRating := "safe", driveable := true, safetyConcerns := [],
            immediateActions := [], inspectionRequired := false }).inspectionRequired := rfl
  refine ⟨?_, ?_, ?_, ?_, ?_, ?_⟩
  · rw [hdrv, foldl_safety_driveable]
    simp [standardZones]
    tauto
  · rw [hins, foldl_safety_inspection]
    simp [standardZones]
  all_goals intros
  all_goals rw [hrate, overallRatingFor]
  all_goals split_ifs <;> first | rfl | linarith

/-- Witness for C2 at the spec's scenario: suspension damage 45 makes the
vehicle not driveable, passenger-compartment damage 25 requires
inspection, and severity 45 rates `caution`. -/
theorem safety_assessment_thresholds_witness :
    ((assess_safety_impact (standardZones 0 25 0 0 45 0) 45).driveable = false
        ↔ (40 < (45:ℚ) ∨ 50 < (0:ℚ)))
    ∧ ((assess_safety_impact (standardZones 0 25 0 0 45 0) 45).inspectionRequired = true
        ↔ 20 < (25:ℚ))
    ∧ (40 < (45:ℚ) ∧ (45:ℚ) ≤ 70
        ∧ (assess_safety_impact (standardZones 0 25 0 0 45 0) 45).overallRating = "caution") :=
  ⟨(safety_assessment_thresholds 0 25 0 0 45 0 45).1,
   (safety_assessment_thresholds 0 25 0 0 45 0 45).2.1,
   by norm_num, by norm_num,
   (safety_assessment_thresholds 0 25 0 0 45 0 45).2.2.2.2.1 (by norm_num) (by norm_num)⟩

/-- C6 counterexample: disconnecting a connected client with one pending
command returns with the command still pending — it is not failed with a
connection-lost error before `disconnect` returns. -/
theorem disconnect_pending_counterexample :
    (disconnect ⟨true, true, [("cmd-1", FutureState.pending)]⟩).connected = false
    ∧ (disconnect ⟨true, true, [("cmd-1", FutureState.pending)]⟩).responseFutures
        = [("cmd-1", FutureState.pending)]
    ∧ lookupStr (disconnect ⟨true, true, [("cmd-1", FutureState.pending)]⟩).responseFutures
        "cmd-1" = some FutureState.pending := by
  refine ⟨?_, ?_, ?_⟩ <;> decide

/-- C6 (amended): `disconnect()` closes the connection and clears the
connected flag but leaves every pending command untouched (as does the
listener's connection-closed handler); a pending caller fails only when
its own `send_command` timeout elapses, with a `BeamNGConnectionError`. -/
theorem disconnect_leaves_pending (s : ClientState) :
    (disconnect s).responseFutures = s.responseFutures
    ∧ (onConnectionClosed (disconnect s)).responseFutures = s.responseFutures
    ∧ (s.websocket = true → s.connected = true → (disconnect s).connected = false)
    ∧ (∀ message_id : String, s.connected = true → s.websocket = true →
        (send_command s message_id none).1
          = Except.error (VWError.beamNGConnectionError "Command timed out")) := by
  refine ⟨?_, ?_, ?_, ?_⟩
  · rw [disconnect]; split <;> rfl
  · rw [onConnectionClosed, disconnect]; split <;> rfl
  · intro hw hc
    rw [disconnect, if_pos ⟨hw, hc⟩]
  · intro message_id hc hw
    rw [send_command, if_neg (by simp [hc, hw])]

/-- Witness for C6 on a connected client with one pending command. -/
theorem disconnect_leaves_pending_witness :
    ((⟨true, true, [("cmd-9", FutureState.pending)]⟩ : ClientState).websocket = true
      ∧ (⟨true, true, [("cmd-9", FutureState.pending)]⟩ : ClientState).connected = true)
    ∧ (disconnect ⟨true, true, [("cmd-9", FutureState.pending)]⟩).responseFutures
        = [("cmd-9", FutureState.pending)]
    ∧ (disconnect ⟨true, true, [("cmd-9", FutureState.pending)]⟩).connected = false
    ∧ (send_command ⟨true, true, [("cmd-9", FutureState.pending)]⟩ "cmd-10" none).1
        = Except.error (VWError.beamNGConnectionError "Command timed out") :=
  ⟨⟨rfl, rfl⟩,
   (disconnect_leaves_pending ⟨true, true, [("cmd-9", FutureState.pending)]⟩).1,
   (disconnect_leaves_pending ⟨true, true, [("cmd-9", FutureState.pending)]⟩).2.2.1 rfl rfl,
   (disconnect_leaves_pending ⟨true, true, [("cmd-9", FutureState.pending)]⟩).2.2.2
     "cmd-10" rfl rfl⟩

/-- C7 counterexample: the error raised when a command times out is a
`BeamNGConnectionError` — the very same exception class raised for
connection-level failures — not a distinct command-timeout type. -/
theorem timeout_error_class_counterexample :
    (send_command ⟨true, true, []⟩ "id-1" none).1
      = Except.error (VWError.beamNGConnectionError "Command timed out")
    ∧ (send_command ⟨true, false, []⟩ "id-1" none).1
      = Except.error (VWError.beamNGConnectionError "Not connected to BeamNG.drive")
    ∧ errorClassOf (VWError.beamNGConnectionError "Command timed out")
        = errorClassOf (VWError.beamNGConnectionError "Not connected to BeamNG.drive") := by
  exact ⟨rfl, rfl, rfl⟩

/-- C7 (amended): a timed-out `send_command` fails with
`BeamNGConnectionError` (the same exception class as connection-level
failures, distinguished only by its message), and the pending entry is
deregistered from the pending table before the error surfaces. -/
theorem command_timeout_deregisters
    (s : ClientState) (message_id : String)
    (hc : s.connected = true) (hw : s.websocket = true)
    (hnodup : (keysOf s.responseFutures).Nodup) :
    (send_command s message_id none).1
      = Except.error (VWError.beamNGConnectionError "Command timed out")
    ∧ errorClassOf (VWError.beamNGConnectionError "Command timed out")
        = ErrorClass.beamNGConnection
    ∧ lookupStr ((send_command s message_id none).2.responseFutures) message_id = none := by
  refine ⟨?_, rfl, ?_⟩
  · rw [send_command, if_neg (by simp [hc, hw])]
  · rw [send_command, if_neg (by simp [hc, hw])]
    exact lookup_erase_insertReplace FutureState.pending hnodup

/-- Witness for C7 on a connected client with one other pending command. -/
theorem command_timeout_deregisters_witness :
    ((⟨true, true, [("other", FutureState.pending)]⟩ : ClientState).connected = true
      ∧ (⟨true, true, [("other", FutureState.pending)]⟩ : ClientState).websocket = true
      ∧ (keysOf (⟨true, true, [("other", FutureState.pending)]⟩ : ClientState).responseFutures).Nodup)
    ∧ (send_command ⟨true, true, [("other", FutureState.pending)]⟩ "id-7" none).1
        = Except.error (VWError.beamNGConnectionError "Command timed out")
    ∧ lookupStr ((send_command ⟨true, true, [("other", FutureState.pending)]⟩ "id-7"
        none).2.responseFutures) "id-7" = none :=
  ⟨⟨rfl, rfl, by simp [keysOf]⟩,
   (command_timeout_deregisters ⟨true, true, [("other", FutureState.pending)]⟩ "id-7"
      rfl rfl (by simp [keysOf])).1,
   (command_timeout_deregisters ⟨true, true, [("other", FutureState.pending)]⟩ "id-7"
      rfl rfl (by simp [keysOf])).2.2⟩

lemma lookup_mem_values {α : Type} {l : List (String × α)} {k : String} {v : α}
    (h : lookupStr l k = some v) : v ∈ l.map (fun p => p.2) := by
  induction l with
  | nil => cases h
  | cons q rest ih =>
      rw [show (q = (q.1, q.2)) from rfl, lookupStr_cons] at h
      split at h
      · cases h; simp
      · simpa using Or.inr (ih h)

lemma zoneParts_partNumbers_nodup (zoneName : String) :
    ((zonePartsFor zoneName).map (fun p => p.partNumber)).Nodup := by
  rw [zonePartsFor]
  rcases h : lookupStr zone_parts_mapping zoneName with _ | v
  · simp
  · rw [Option.getD_some]
    have hv := lookup_mem_values h
    simp only [zone_parts_mapping, List.map_cons, List.map_nil] at hv
    fin_cases hv <;> decide

/-- C8 counterexample: at zone damage 16 in `front_end` (impact force 20,
deformation 10), the front bumper's threshold 15 is reached, yet no part
is listed as affected — `_assess_zone_damage` gates parts behind a
minimum zone damage of 20. -/
theorem affected_parts_gate_counterexample :
    (assess_zone_damage "front_end" 20 10).damageLevel = 16
    ∧ ((15:ℚ) ≤ 16)
    ∧ (⟨"1J0807221", "Front Bumper Cover", 15⟩ : PartInfo) ∈ zonePartsFor "front_end"
    ∧ (assess_zone_damage "front_end" 20 10).affectedParts = [] := by
  refine ⟨?_, by norm_num, by decide, ?_⟩
  · norm_num [assess_zone_damage, min_def]
  · norm_num [assess_zone_damage, min_def]

/-- C8 (amended): a catalog part of a zone is listed as affected exactly
when the zone damage level exceeds the minor-damage gate of 20 AND
reaches the part's configured threshold; the per-part threshold test
alone is inclusive, but damage at or below 20 yields no affected parts
regardless of thresholds. -/
theorem affected_parts_thresholds
    (zoneName : String) (impact_force deformation_amount : ℚ) (p : PartInfo)
    (hp : p ∈ zonePartsFor zoneName) :
    ((∃ dp ∈ (assess_zone_damage zoneName impact_force deformation_amount).affectedParts,
        dp.partNumber = p.partNumber)
      ↔ (20 < (assess_zone_damage zoneName impact_force deformation_amount).damageLevel
          ∧ p.threshold ≤ (assess_zone_damage zoneName impact_force deformation_amount).damageLevel)) := by
  simp only [assess_zone_damage]
  by_cases hgate : 20 < min 100 (impact_force * (3/5) + deformation_amount * (2/5))
  · rw [if_pos hgate]
    constructor
    · rintro ⟨dp, hdp, hnum⟩
      refine ⟨hgate, ?_⟩
      simp only [identify_damaged_parts, List.mem_filterMap] at hdp
      obtain ⟨q, hq, hqe⟩ := hdp
      split at hqe
      · rename_i hth
        cases hqe
        have hqp : q = p :=
          List.inj_on_of_nodup_map (zoneParts_partNumbers_nodup zoneName) hq hp hnum
        rw [← hqp]
        exact hth
      · cases hqe
    · rintro ⟨-, hth⟩
      refine ⟨⟨p.partNumber, p.name,
        severityFor (min 100 (impact_force * (3/5) + deformation_amount * (2/5))),
        min 100 (min 100 (impact_force * (3/5) + deformation_amount * (2/5)))⟩, ?_, rfl⟩
      simp only [identify_damaged_parts, List.mem_filterMap]
      exact ⟨p, hp, by rw [if_pos hth]⟩
  · rw [if_neg hgate]
    simp [hgate]

/-- Witness for C8: the front bumper (threshold 15) in `front_end` at
impact force 50 and deformation 0 (zone damage 30). -/
theorem affected_parts_thresholds_witness :
    ((⟨"1J0807221", "Front Bumper Cover", 15⟩ : PartInfo) ∈ zonePartsFor "front_end")
    ∧ ((∃ dp ∈ (assess_zone_damage "front_end" 50 0).affectedParts,
          dp.partNumber = (⟨"1J0807221", "Front Bumper Cover", 15⟩ : PartInfo).partNumber)
        ↔ (20 < (assess_zone_damage "front_end" 50 0).damageLevel
            ∧ (⟨"1J0807221", "Front Bumper Cover", 15⟩ : PartInfo).threshold
                ≤ (assess_zone_damage "front_end" 50 0).damageLevel)) :=
  ⟨by decide, affected_parts_thresholds "front_end" 50 0 _ (by decide)⟩

end VW
